import Mathlib

set_option maxHeartbeats 1000000
set_option maxRecDepth 4000

namespace Webbrowser

/-- Strings are modelled as lists of characters. -/
abbrev Str := List Char

/-- View a Lean string literal as the character-list model. -/
def str (s : String) : Str := s.data

/-- Error kinds of the crate's io-style error type; only the kinds relevant to
this module are modelled. -/
inductive ErrorKind where
  | notFound
  | permissionDenied
  | other
deriving DecidableEq

/-- The crate's Error type: a kind plus a human-readable message. -/
structure Error where
  kind : ErrorKind
  msg : Str
deriving DecidableEq

/-- A concrete command line: program plus ordered arguments. -/
structure Cmd where
  prog : Str
  args : List Str
deriving DecidableEq

/-- Whether a launch blocks on the child's exit status or detaches. -/
inductive LaunchMode where
  | block
  | detach
deriving DecidableEq

/-- One attempted external command, with its launch mode (trace data). -/
structure Attempt where
  cmd : Cmd
  mode : LaunchMode
deriving DecidableEq

/-- Modelled from the spec: the crate root (lib.rs, not under src/) declares the
Browser selector as a closed enumeration in which only the system-default
variant is implemented on this platform family. -/
inductive Browser where
  | Default
  | Firefox
  | Safari
deriving DecidableEq

/-- Result of a launch call: an exit status, an error, or a panic (the code
indexes cmdarr[0], which can be out of bounds). -/
inductive RunResult where
  | ok (status : Int)
  | err (e : Error)
  | crash
deriving DecidableEq

/-- The environment and operating system surrounding one call: the two
environment variables the code reads, an oracle for running a command to
completion (Command::status) and one for spawning it detached (Command::spawn). -/
structure World where
  browserVar : Option Str
  xdgDesktop : Option Str
  status : Cmd → Except Error Int
  spawn : Cmd → Except Error Unit

/-- str::replace for a two-character pattern [a, b]: replace every left-to-right
non-overlapping occurrence with r. Every pattern the code uses ("%s", "%c",
"%%") has exactly two characters. -/
def replace2 (a b : Char) (r : Str) : Str → Str
  | [] => []
  | [c] => [c]
  | c :: d :: rest =>
    if c = a ∧ d = b then r ++ replace2 a b r rest
    else c :: replace2 a b r (d :: rest)

/-- str::contains: p occurs as a contiguous substring of s. -/
def containsSub (s p : Str) : Bool :=
  p.isPrefixOf s ||
    match s with
    | [] => false
    | _ :: rest => containsSub rest p

/-- str::split_whitespace, accumulator form; the current token is held reversed. -/
def splitWsAux : Str → Str → List Str
  | [], cur => if cur = [] then [] else [cur.reverse]
  | c :: rest, cur =>
    if c.isWhitespace then
      if cur = [] then splitWsAux rest [] else cur.reverse :: splitWsAux rest []
    else
      splitWsAux rest (c :: cur)

/-- str::split_whitespace: whitespace-separated tokens, no empty tokens. -/
def splitWs (s : Str) : List Str := splitWsAux s []

/-- str::split(sep): keeps empty segments; the empty string yields one empty
segment. -/
def splitOnChar (sep : Char) : Str → List Str
  | [] => [[]]
  | c :: rest =>
    if c = sep then [] :: splitOnChar sep rest
    else
      match splitOnChar sep rest with
      | [] => [[c]]
      | t :: ts => (c :: t) :: ts

/-- The list of known text-mode browsers (static TEXT_BROWSERS). -/
def TEXT_BROWSERS : List Str :=
  [str "lynx", str "links", str "links2", str "elinks", str "w3m", str "eww",
   str "netrik", str "retawq"]

/-- is_text_browser: the command equals a known text browser or ends with
"/" followed by one. -/
def is_text_browser (command : Str) : Bool :=
  TEXT_BROWSERS.any (fun browser =>
    command == browser || List.isSuffixOf ('/' :: browser) command)

/-- The substituted command line of one $BROWSER segment:
browser.replace("%s", url).replace("%c", ":").replace("%%", "%"). -/
def cmdlineOf (browser url : Str) : Str :=
  replace2 '%' '%' (str "%") (replace2 '%' 'c' (str ":") (replace2 '%' 's' url browser))

/-- cmdarr: the whitespace-split substituted command line. -/
def cmdarrOf (browser url : Str) : List Str := splitWs (cmdlineOf browser url)

/-- Resolution of one non-empty $BROWSER segment into the attempted command:
program is cmdarr[0] (none models the out-of-bounds panic when cmdarr is
empty); arguments are cmdarr[1..], with the raw url appended when the original
segment does not contain "%s"; text browsers run blocking, all others
detached. -/
def resolveAttempt (browser url : Str) : Option Attempt :=
  match cmdarrOf browser url with
  | [] => none
  | browser_cmd :: rest =>
    some { cmd := { prog := browser_cmd,
                    args := rest ++ (if containsSub browser (str "%s") then [] else [url]) },
           mode := if is_text_browser browser_cmd then LaunchMode.block else LaunchMode.detach }

/-- Modelled from the spec: lib.rs (not under src/) supplies the conversion used
in `cmd.spawn().status()`: per the spec, a successful detached spawn reports
immediate success with a synthetic zero exit status; a failed spawn reports its
error. -/
def spawnStatus (w : World) (c : Cmd) : Except Error Int :=
  match w.spawn c with
  | .ok _ => .ok 0
  | .error e => .error e

/-- Outcome of one resolved attempt: blocking wait (Command::status) for text
browsers, detached spawn otherwise. -/
def attemptOutcome (w : World) (a : Attempt) : Except Error Int :=
  match a.mode with
  | .block => w.status a.cmd
  | .detach => spawnStatus w a.cmd

/-- The loop of open_on_unix_using_browser_env over the ':'-split segments:
empty segments are skipped; the first attempt whose outcome is Ok is returned;
a failed attempt falls through to the next segment; exhaustion yields NotFound.
The second component is the trace of attempts, in order. -/
def tryBrowserSpecs (w : World) (url : Str) : List Str → RunResult × List Attempt
  | [] => (.err ⟨.notFound, str "No valid command in $BROWSER"⟩, [])
  | browser :: rest =>
    if browser = [] then tryBrowserSpecs w url rest
    else
      match resolveAttempt browser url with
      | none => (.crash, [])
      | some att =>
        match attemptOutcome w att with
        | .ok s => (.ok s, [att])
        | .error _ =>
          let p := tryBrowserSpecs w url rest
          (p.1, att :: p.2)

/-- open_on_unix_using_browser_env: read $BROWSER (NotFound if unset), split the
value on ':' and try each segment in order. -/
def open_on_unix_using_browser_env (w : World) (url : Str) : RunResult × List Attempt :=
  match w.browserVar with
  | none => (.err ⟨.notFound, str "BROWSER env not set"⟩, [])
  | some browsers => tryBrowserSpecs w url (splitOnChar ':' browsers)

/-- One `.or_else` step of the fallback chain that runs a command to completion:
it acts only when the accumulated result is an error, replacing it with the
command's outcome. -/
def orStatus (w : World) (c : Cmd) : RunResult × List Attempt → RunResult × List Attempt
  | (.err _, t) =>
    match w.status c with
    | .ok s => (.ok s, t ++ [⟨c, .block⟩])
    | .error e => (.err e, t ++ [⟨c, .block⟩])
  | acc => acc

/-- The KDE-conditional kioclient step: runs `kioclient exec url` only when
XDG_CURRENT_DESKTOP is set and equals exactly "KDE"; otherwise it keeps the
previous error. -/
def stepKde (w : World) (url : Str) : RunResult × List Attempt → RunResult × List Attempt
  | (.err r, t) =>
    match w.xdgDesktop with
    | some desktop =>
      if desktop = str "KDE" then
        match w.status ⟨str "kioclient", [str "exec", url]⟩ with
        | .ok s => (.ok s, t ++ [⟨⟨str "kioclient", [str "exec", url]⟩, .block⟩])
        | .error e => (.err e, t ++ [⟨⟨str "kioclient", [str "exec", url]⟩, .block⟩])
      else (.err r, t)
    | none => (.err r, t)
  | acc => acc

/-- The final step: spawn x-www-browser in the background; if the spawn call
itself succeeds, return a synthetic zero exit status, otherwise keep the
previous error. -/
def stepXWWW (w : World) (url : Str) : RunResult × List Attempt → RunResult × List Attempt
  | (.err e, t) =>
    match w.spawn ⟨str "x-www-browser", [url]⟩ with
    | .ok _ => (.ok 0, t ++ [⟨⟨str "x-www-browser", [url]⟩, .detach⟩])
    | .error _ => (.err e, t ++ [⟨⟨str "x-www-browser", [url]⟩, .detach⟩])
  | acc => acc

/-- The or_else chain that follows the $BROWSER phase, in source order. -/
def fallbackChain (w : World) (url : Str) (acc : RunResult × List Attempt) :
    RunResult × List Attempt :=
  stepXWWW w url
    (orStatus w ⟨str "kioclient", [str "exec", url]⟩
      (orStatus w ⟨str "open", [url]⟩
        (orStatus w ⟨str "gnome-open", [url]⟩
          (orStatus w ⟨str "gvfs-open", [url]⟩
            (stepKde w url
              (orStatus w ⟨str "xdg-open", [url]⟩ acc))))))

/-- open_browser_internal: for the default browser, the $BROWSER phase followed
by the launcher fallback chain; any other selector fails immediately. -/
def open_browser_internal (w : World) (browser : Browser) (url : Str) :
    RunResult × List Attempt :=
  match browser with
  | .Default => fallbackChain w url (open_on_unix_using_browser_env w url)
  | _ => (.err ⟨.notFound,
            str "Only the default browser is supported on this platform right now"⟩, [])

/-- Spec-side: the fixed fallback command list, written from the spec's words:
xdg-open; kioclient exec only when XDG_CURRENT_DESKTOP equals "KDE"; gvfs-open;
gnome-open; open; kioclient exec again unconditionally; finally x-www-browser
spawned detached. -/
def specFallbackCmds (w : World) (url : Str) : List (Cmd × LaunchMode) :=
  [(⟨str "xdg-open", [url]⟩, LaunchMode.block)]
  ++ (if w.xdgDesktop = some (str "KDE") then
        [(⟨str "kioclient", [str "exec", url]⟩, LaunchMode.block)]
      else [])
  ++ [(⟨str "gvfs-open", [url]⟩, LaunchMode.block),
      (⟨str "gnome-open", [url]⟩, LaunchMode.block),
      (⟨str "open", [url]⟩, LaunchMode.block),
      (⟨str "kioclient", [str "exec", url]⟩, LaunchMode.block),
      (⟨str "x-www-browser", [url]⟩, LaunchMode.detach)]

/-- Spec-side runner: try each command in order, stopping at the first blocking
run that returns an exit status, or at the first detached spawn that succeeds
(reported as a synthetic zero status); a blocking failure replaces the carried
error, a detached failure keeps it. -/
def runFallbackList (w : World) :
    Error → List Attempt → List (Cmd × LaunchMode) → RunResult × List Attempt
  | e, t, [] => (.err e, t)
  | _, t, (c, LaunchMode.block) :: rest =>
    match w.status c with
    | .ok s => (.ok s, t ++ [⟨c, .block⟩])
    | .error e2 => runFallbackList w e2 (t ++ [⟨c, .block⟩]) rest
  | e, t, (c, LaunchMode.detach) :: rest =>
    match w.spawn c with
    | .ok _ => (.ok 0, t ++ [⟨c, .detach⟩])
    | .error _ => runFallbackList w e (t ++ [⟨c, .detach⟩]) rest

/-- Example url used by the concrete instances below. -/
def uEx : Str := str "http://example.com"

/-- A status oracle in which every program is missing. -/
def failStatus : Cmd → Except Error Int :=
  fun _ => .error ⟨.notFound, str "program missing"⟩

/-- A spawn oracle in which every program is missing. -/
def failSpawn : Cmd → Except Error Unit :=
  fun _ => .error ⟨.notFound, str "program missing"⟩

/-- A world with BROWSER unset and every launcher missing. -/
def wUnset : World := ⟨none, none, failStatus, failSpawn⟩

/-- A world with BROWSER set to the empty string and every launcher missing. -/
def wEmptyBrowser : World := ⟨some [], none, failStatus, failSpawn⟩

/-- A world with BROWSER="firefox %s:chromium" where only chromium spawns. -/
def wC5 : World :=
  ⟨some (str "firefox %s:chromium"), none, failStatus,
   fun c => if c.prog = str "chromium" then .ok ()
            else .error ⟨.notFound, str "program missing"⟩⟩

/-- A world in which kioclient fails with a non-NotFound error and the
x-www-browser spawn fails with its own distinct reason. -/
def wC7 : World :=
  ⟨none, none,
   fun c => if c.prog = str "kioclient" then .error ⟨.other, str "kio denied"⟩
            else .error ⟨.notFound, str "absent"⟩,
   fun _ => .error ⟨.notFound, str "xwww gone"⟩⟩

/-- A world with BROWSER set to a single space. -/
def wSpace : World := ⟨some (str " "), none, failStatus, failSpawn⟩

/-- A world with BROWSER="lynx: " (a whitespace-only second segment). -/
def wLynxSpace : World := ⟨some (str "lynx: "), none, failStatus, failSpawn⟩

/-- isPrefixOf on two cons cells unfolds to a head test and a tail test. -/
lemma isPrefixOf_cons₂ (a c : Char) (p s : Str) :
    List.isPrefixOf (a :: p) (c :: s) = (a == c && List.isPrefixOf p s) := rfl

/-- containsSub on a cons cell: prefix here, or contained in the tail. -/
lemma containsSub_cons (c : Char) (rest p : Str) :
    containsSub (c :: rest) p = (p.isPrefixOf (c :: rest) || containsSub rest p) := rfl

/-- A pattern whose head character does not occur in s is not contained in s. -/
lemma containsSub_head_not_mem {x : Char} (w : Str) :
    ∀ s : Str, x ∉ s → containsSub s (x :: w) = false := by
  intro s
  induction s with
  | nil => intro _; rfl
  | cons c rest ih =>
    intro h
    simp only [List.mem_cons, not_or] at h
    rw [containsSub_cons, ih h.2, isPrefixOf_cons₂, beq_eq_false_iff_ne.mpr h.1]
    rfl

/-- If p is a Boolean prefix of s then p is contained in s. -/
lemma containsSub_of_isPrefixOf {p s : Str} (h : p.isPrefixOf s = true) :
    containsSub s p = true := by
  cases s with
  | nil => simp [containsSub, h]
  | cons c rest => rw [containsSub_cons, h]; rfl

/-- A pattern occurring in the middle of a string is contained in it. -/
lemma containsSub_middle (a p b : Str) : containsSub (a ++ p ++ b) p = true := by
  induction a with
  | nil =>
    simp only [List.nil_append]
    exact containsSub_of_isPrefixOf
      (List.isPrefixOf_iff_prefix.mpr (List.prefix_append p b))
  | cons c a' ih =>
    simp only [List.cons_append]
    rw [containsSub_cons, ih]
    simp

/-- replace2 leaves a string alone when the pattern does not occur in it. -/
lemma replace2_not_contains {a b : Char} (r : Str) :
    ∀ s : Str, containsSub s [a, b] = false → replace2 a b r s = s := by
  intro s
  induction s with
  | nil => intro _; rfl
  | cons c rest ih =>
    intro h
    cases rest with
    | nil => rfl
    | cons d rest' =>
      rw [containsSub_cons] at h
      simp only [Bool.or_eq_false_iff] at h
      have hne : ¬(c = a ∧ d = b) := by
        rintro ⟨rfl, rfl⟩
        simp [List.isPrefixOf] at h
      simp only [replace2, if_neg hne]
      rw [ih h.2]

/-- replace2 on a string whose first pattern occurrence follows a prefix free of
the pattern's head character: the occurrence is replaced and scanning resumes
after it. -/
lemma replace2_first (a b : Char) (r : Str) :
    ∀ pre : Str, ∀ tail : Str, a ∉ pre →
      replace2 a b r (pre ++ a :: b :: tail) = pre ++ r ++ replace2 a b r tail := by
  intro pre
  induction pre with
  | nil => intro tail _; simp [replace2]
  | cons c pre' ih =>
    intro tail h
    simp only [List.mem_cons, not_or] at h
    obtain ⟨hca, hpre⟩ := h
    cases pre' with
    | nil =>
      have h1 : ¬(c = a ∧ a = b) := fun hh => hca hh.1.symm
      simp [replace2, h1]
    | cons e pre'' =>
      have h1 : ¬(c = a ∧ e = b) := fun hh => hca hh.1.symm
      have := ih tail hpre
      simp only [List.cons_append, List.append_eq, replace2, if_neg h1] at this ⊢
      rw [this]

/-- An isolated "%x"-style occurrence (here c followed by d, with d different
from both the pattern tail e and the pattern head c, and c occurring nowhere
else) does not produce a [c, e] match. -/
lemma containsSub_isolated {c d e : Char} {y : Str} :
    ∀ x : Str, c ∉ x → c ∉ y → d ≠ e → d ≠ c →
      containsSub (x ++ c :: d :: y) [c, e] = false := by
  intro x
  induction x with
  | nil =>
    intro _ hy hde hdc
    rw [List.nil_append, containsSub_cons]
    rw [containsSub_head_not_mem _ (d :: y) (by simp [Ne.symm hdc, hy])]
    rw [isPrefixOf_cons₂, isPrefixOf_cons₂, beq_eq_false_iff_ne.mpr (Ne.symm hde)]
    simp
  | cons f x' ih =>
    intro hx hy hde hdc
    simp only [List.mem_cons, not_or] at hx
    rw [List.cons_append, containsSub_cons, ih hx.2 hy hde hdc]
    rw [isPrefixOf_cons₂, beq_eq_false_iff_ne.mpr hx.1]
    rfl

/-- A double occurrence of c (as in "%%") produces no [c, e] match provided e
differs from c and the following text does not start with e. -/
lemma containsSub_double {c e : Char} {y : Str} :
    ∀ x : Str, c ∉ x → c ∉ y → e ≠ c → y.head? ≠ some e →
      containsSub (x ++ c :: c :: y) [c, e] = false := by
  intro x
  induction x with
  | nil =>
    intro _ hy hec hhead
    rw [List.nil_append, containsSub_cons]
    have h2 : containsSub (c :: y) [c, e] = false := by
      rw [containsSub_cons, containsSub_head_not_mem _ y hy]
      cases y with
      | nil => simp [List.isPrefixOf]
      | cons d y' =>
        have hde : e ≠ d := fun hh => hhead (by rw [hh]; rfl)
        rw [isPrefixOf_cons₂, isPrefixOf_cons₂, beq_eq_false_iff_ne.mpr hde]
        simp
    rw [h2, isPrefixOf_cons₂, isPrefixOf_cons₂, beq_eq_false_iff_ne.mpr hec]
    simp
  | cons f x' ih =>
    intro hx hy hec hhead
    simp only [List.mem_cons, not_or] at hx
    rw [List.cons_append, containsSub_cons, ih hx.2 hy hec hhead]
    rw [isPrefixOf_cons₂, beq_eq_false_iff_ne.mpr hx.1]
    rfl

/-- C2: for every BrowserSpec and URL, the resolved command line is the result
of replacing "%s" with the URL, then "%c" with ":", then "%%" with "%", split
on whitespace into program and arguments; and exactly when the original
pre-substitution segment lacks "%s", the raw URL is appended as one additional
trailing argument, so the resolved argument list is then the whitespace-split
substituted template followed by the literal URL. -/
theorem C2_resolution (browser url : Str) (att : Attempt)
    (h : resolveAttempt browser url = some att) :
    cmdarrOf browser url =
      splitWs (replace2 '%' '%' (str "%")
        (replace2 '%' 'c' (str ":") (replace2 '%' 's' url browser)))
    ∧ att.cmd.prog :: att.cmd.args =
        cmdarrOf browser url ++ (if containsSub browser (str "%s") then [] else [url])
    ∧ (containsSub browser (str "%s") = false ↔
        att.cmd.prog :: att.cmd.args = cmdarrOf browser url ++ [url]) := by
  refine ⟨rfl, ?_, ?_⟩
  · cases hcm : cmdarrOf browser url with
    | nil => simp [resolveAttempt, hcm] at h
    | cons p rest =>
      simp only [resolveAttempt, hcm, Option.some.injEq] at h
      subst h
      simp
  · cases hcm : cmdarrOf browser url with
    | nil => simp [resolveAttempt, hcm] at h
    | cons p rest =>
      simp only [resolveAttempt, hcm, Option.some.injEq] at h
      subst h
      by_cases hcs : containsSub browser (str "%s") = true
      · simp only [hcs, if_true, List.append_nil]
        constructor
        · intro hf; simp at hf
        · intro heq
          have := congrArg List.length heq
          simp at this
      · simp only [Bool.not_eq_true] at hcs
        simp [hcs]

/-- C2 witness: a concrete spec without "%s" gets the URL appended. -/
theorem C2_witness :
    resolveAttempt (str "chromium") uEx =
      some ⟨⟨str "chromium", [uEx]⟩, LaunchMode.detach⟩
    ∧ (⟨⟨str "chromium", [uEx]⟩, LaunchMode.detach⟩ : Attempt).cmd.prog ::
        (⟨⟨str "chromium", [uEx]⟩, LaunchMode.detach⟩ : Attempt).cmd.args =
        cmdarrOf (str "chromium") uEx ++ [uEx] :=
  ⟨by decide,
   ((C2_resolution (str "chromium") uEx _ (by decide)).2.2).mp (by decide)⟩

/-- C3 counterexample: for the BrowserSpec "firefox %s" and the URL "a%cb",
the resolved command line is "firefox a:b"; the literal input URL does not
occur anywhere in it (the later "%c" pass corrupted it), refuting the claim
that the literal URL always appears unmodified at the "%s" position. -/
theorem C3_counterexample :
    cmdlineOf (str "firefox %s") (str "a%cb") = str "firefox a:b"
    ∧ containsSub (str "firefox %s") (str "%s") = true
    ∧ containsSub (str "firefox a:b") (str "a%cb") = false := by
  refine ⟨by decide, by decide, by decide⟩

/-- C3 amended: for every BrowserSpec containing "%s" the URL is never
additionally appended as a trailing argument; and the literal URL appears
unmodified at the "%s" position provided no other percent signs are present in
the template around the placeholder or in the URL itself (otherwise the later
"%c"/"%%" passes can corrupt the inserted URL). -/
theorem C3_url_substitution (pre post url : Str)
    (hpre : '%' ∉ pre) (hpost : '%' ∉ post) (hurl : '%' ∉ url) :
    cmdlineOf (pre ++ str "%s" ++ post) url = pre ++ url ++ post
    ∧ containsSub (pre ++ str "%s" ++ post) (str "%s") = true
    ∧ (∀ browser url2 : Str, ∀ att : Attempt,
        containsSub browser (str "%s") = true →
        resolveAttempt browser url2 = some att →
        att.cmd.prog :: att.cmd.args = cmdarrOf browser url2) := by
  refine ⟨?_, containsSub_middle pre (str "%s") post, ?_⟩
  · have e1 : replace2 '%' 's' url (pre ++ str "%s" ++ post) = pre ++ url ++ post := by
      have h := replace2_first '%' 's' url pre post hpre
      rw [replace2_not_contains url post
        (containsSub_head_not_mem _ post hpost)] at h
      simpa [str, List.append_assoc] using h
    have hmem : '%' ∉ pre ++ url ++ post := by
      simp [List.mem_append, hpre, hpost, hurl]
    have e2 : replace2 '%' 'c' (str ":") (pre ++ url ++ post) = pre ++ url ++ post :=
      replace2_not_contains _ _ (containsSub_head_not_mem _ _ hmem)
    have e3 : replace2 '%' '%' (str "%") (pre ++ url ++ post) = pre ++ url ++ post :=
      replace2_not_contains _ _ (containsSub_head_not_mem _ _ hmem)
    rw [cmdlineOf, e1, e2, e3]
  · intro browser url2 att hc hres
    cases hcm : cmdarrOf browser url2 with
    | nil => simp [resolveAttempt, hcm] at hres
    | cons p rest =>
      simp only [resolveAttempt, hcm, Option.some.injEq] at hres
      subst hres
      simp [hc]

/-- C3 witness: with no stray percent signs, the URL lands intact at the
placeholder position. -/
theorem C3_witness :
    cmdlineOf (str "firefox " ++ str "%s" ++ str " -new-tab") uEx =
      str "firefox " ++ uEx ++ str " -new-tab" :=
  (C3_url_substitution (str "firefox ") (str " -new-tab") uEx
    (by decide) (by decide) (by decide)).1

/-- C4 counterexample: in the spec "x %%c" the occurrence of "%%" does not
resolve to a literal percent sign: the "%c" pass (which runs before the "%%"
pass) consumes the second percent, so the command line becomes "x %:" instead
of "x %c". -/
theorem C4_counterexample :
    cmdlineOf (str "x %%c") (str "u") = str "x %:"
    ∧ containsSub (str "x %%c") (str "%%") = true
    ∧ str "x %:" ≠ str "x %c" := by
  refine ⟨by decide, by decide, by decide⟩

/-- C4 amended: an occurrence of "%c" whose surroundings contain no further
percent signs resolves to a literal colon in the resolved command line, and an
occurrence of "%%" likewise resolves to a literal percent sign provided the
following text does not begin with 'c' or 's' (otherwise the earlier "%c"/"%s"
pass consumes its second percent, as in "%%c"). -/
theorem C4_placeholder_resolution (pre post url : Str)
    (hpre : '%' ∉ pre) (hpost : '%' ∉ post) :
    cmdlineOf (pre ++ str "%c" ++ post) url = pre ++ str ":" ++ post
    ∧ (post.head? ≠ some 'c' → post.head? ≠ some 's' →
        cmdlineOf (pre ++ str "%%" ++ post) url = pre ++ str "%" ++ post) := by
  constructor
  · have hshape : pre ++ str "%c" ++ post = pre ++ '%' :: 'c' :: post := by
      simp [str, List.append_assoc]
    rw [hshape]
    have e1 : replace2 '%' 's' url (pre ++ '%' :: 'c' :: post) =
        pre ++ '%' :: 'c' :: post :=
      replace2_not_contains _ _
        (containsSub_isolated pre hpre hpost (by decide) (by decide))
    have e2 : replace2 '%' 'c' (str ":") (pre ++ '%' :: 'c' :: post) =
        pre ++ ':' :: post := by
      have h := replace2_first '%' 'c' (str ":") pre post hpre
      rw [replace2_not_contains _ post
        (containsSub_head_not_mem _ post hpost)] at h
      simpa [str] using h
    have hmem : '%' ∉ pre ++ ':' :: post := by
      simp [List.mem_append, hpre, hpost]
    have e3 : replace2 '%' '%' (str "%") (pre ++ ':' :: post) = pre ++ ':' :: post :=
      replace2_not_contains _ _ (containsSub_head_not_mem _ _ hmem)
    rw [cmdlineOf, e1, e2, e3]
    simp [str]
  · intro hc hs
    have hshape : pre ++ str "%%" ++ post = pre ++ '%' :: '%' :: post := by
      simp [str, List.append_assoc]
    rw [hshape]
    have e1 : replace2 '%' 's' url (pre ++ '%' :: '%' :: post) =
        pre ++ '%' :: '%' :: post :=
      replace2_not_contains _ _
        (containsSub_double pre hpre hpost (by decide) hs)
    have e2 : replace2 '%' 'c' (str ":") (pre ++ '%' :: '%' :: post) =
        pre ++ '%' :: '%' :: post :=
      replace2_not_contains _ _
        (containsSub_double pre hpre hpost (by decide) hc)
    have e3 : replace2 '%' '%' (str "%") (pre ++ '%' :: '%' :: post) =
        pre ++ '%' :: post := by
      have h := replace2_first '%' '%' (str "%") pre post hpre
      rw [replace2_not_contains _ post
        (containsSub_head_not_mem _ post hpost)] at h
      simpa [str] using h
    rw [cmdlineOf, e1, e2, e3]
    simp [str]

/-- C4 witness: isolated "%c" and "%%" occurrences resolve to ':' and '%'. -/
theorem C4_witness :
    cmdlineOf (str "p " ++ str "%c" ++ str "q") (str "u") =
      str "p " ++ str ":" ++ str "q"
    ∧ cmdlineOf (str "p " ++ str "%%" ++ str "q") (str "u") =
      str "p " ++ str "%" ++ str "q" :=
  ⟨(C4_placeholder_resolution (str "p ") (str "q") (str "u")
      (by decide) (by decide)).1,
   (C4_placeholder_resolution (str "p ") (str "q") (str "u")
      (by decide) (by decide)).2 (by decide) (by decide)⟩

/-- Adding one blocking step in front of a chain suffix preserves the
runFallbackList description. -/
lemma chain_cons_block (w : World) (c : Cmd) (L : List (Cmd × LaunchMode))
    (F : RunResult × List Attempt → RunResult × List Attempt)
    (hok : ∀ s t, F (.ok s, t) = (.ok s, t))
    (herr : ∀ e t, F (.err e, t) = runFallbackList w e t L)
    (e : Error) (t : List Attempt) :
    F (orStatus w c (.err e, t)) = runFallbackList w e t ((c, LaunchMode.block) :: L) := by
  cases h : w.status c with
  | ok s =>
    rw [show orStatus w c (.err e, t) = (.ok s, t ++ [⟨c, .block⟩]) from by
      simp [orStatus, h]]
    rw [hok]
    simp [runFallbackList, h]
  | error e2 =>
    rw [show orStatus w c (.err e, t) = (.err e2, t ++ [⟨c, .block⟩]) from by
      simp [orStatus, h]]
    rw [herr]
    simp [runFallbackList, h]

/-- The KDE-conditional step corresponds to an optional kioclient entry. -/
lemma chain_kde (w : World) (url : Str) (L : List (Cmd × LaunchMode))
    (F : RunResult × List Attempt → RunResult × List Attempt)
    (hok : ∀ s t, F (.ok s, t) = (.ok s, t))
    (herr : ∀ e t, F (.err e, t) = runFallbackList w e t L)
    (e : Error) (t : List Attempt) :
    F (stepKde w url (.err e, t)) =
      runFallbackList w e t
        ((if w.xdgDesktop = some (str "KDE")
          then [(⟨str "kioclient", [str "exec", url]⟩, LaunchMode.block)]
          else []) ++ L) := by
  cases hd : w.xdgDesktop with
  | none => simp [stepKde, hd, herr]
  | some d =>
    by_cases hkde : d = str "KDE"
    · subst hkde
      cases h : w.status ⟨str "kioclient", [str "exec", url]⟩ with
      | ok s => simp [stepKde, hd, h, runFallbackList, hok]
      | error e2 => simp [stepKde, hd, h, runFallbackList, herr]
    · simp [stepKde, hd, hkde, herr]

/-- The final x-www-browser step matches a one-entry detached chain. -/
lemma chain_xwww (w : World) (url : Str) (e : Error) (t : List Attempt) :
    stepXWWW w url (.err e, t) =
      runFallbackList w e t [(⟨str "x-www-browser", [url]⟩, LaunchMode.detach)] := by
  cases h : w.spawn ⟨str "x-www-browser", [url]⟩ with
  | ok u => simp [stepXWWW, h, runFallbackList]
  | error e2 => simp [stepXWWW, h, runFallbackList]

/-- The whole or_else chain, entered with an error, equals the spec-side runner
over the spec-side fallback command list. -/
lemma fallbackChain_err (w : World) (url : Str) (e : Error) (t : List Attempt) :
    fallbackChain w url (.err e, t) = runFallbackList w e t (specFallbackCmds w url) := by
  have h7 : ∀ e t, stepXWWW w url (.err e, t) =
      runFallbackList w e t [(⟨str "x-www-browser", [url]⟩, LaunchMode.detach)] :=
    fun e t => chain_xwww w url e t
  have h6 : ∀ e t,
      stepXWWW w url (orStatus w ⟨str "kioclient", [str "exec", url]⟩ (.err e, t)) =
      runFallbackList w e t
        [(⟨str "kioclient", [str "exec", url]⟩, LaunchMode.block),
         (⟨str "x-www-browser", [url]⟩, LaunchMode.detach)] :=
    fun e t => chain_cons_block w _ _ (stepXWWW w url) (fun _ _ => rfl) h7 e t
  have h5 : ∀ e t,
      stepXWWW w url (orStatus w ⟨str "kioclient", [str "exec", url]⟩
        (orStatus w ⟨str "open", [url]⟩ (.err e, t))) =
      runFallbackList w e t
        [(⟨str "open", [url]⟩, LaunchMode.block),
         (⟨str "kioclient", [str "exec", url]⟩, LaunchMode.block),
         (⟨str "x-www-browser", [url]⟩, LaunchMode.detach)] :=
    fun e t => chain_cons_block w _ _
      (fun acc => stepXWWW w url (orStatus w ⟨str "kioclient", [str "exec", url]⟩ acc))
      (fun _ _ => rfl) h6 e t
  have h4 : ∀ e t,
      stepXWWW w url (orStatus w ⟨str "kioclient", [str "exec", url]⟩
        (orStatus w ⟨str "open", [url]⟩
          (orStatus w ⟨str "gnome-open", [url]⟩ (.err e, t)))) =
      runFallbackList w e t
        [(⟨str "gnome-open", [url]⟩, LaunchMode.block),
         (⟨str "open", [url]⟩, LaunchMode.block),
         (⟨str "kioclient", [str "exec", url]⟩, LaunchMode.block),
         (⟨str "x-www-browser", [url]⟩, LaunchMode.detach)] :=
    fun e t => chain_cons_block w _ _
      (fun acc => stepXWWW w url (orStatus w ⟨str "kioclient", [str "exec", url]⟩
        (orStatus w ⟨str "open", [url]⟩ acc)))
      (fun _ _ => rfl) h5 e t
  have h3 : ∀ e t,
      stepXWWW w url (orStatus w ⟨str "kioclient", [str "exec", url]⟩
        (orStatus w ⟨str "open", [url]⟩
          (orStatus w ⟨str "gnome-open", [url]⟩
            (orStatus w ⟨str "gvfs-open", [url]⟩ (.err e, t))))) =
      runFallbackList w e t
        [(⟨str "gvfs-open", [url]⟩, LaunchMode.block),
         (⟨str "gnome-open", [url]⟩, LaunchMode.block),
         (⟨str "open", [url]⟩, LaunchMode.block),
         (⟨str "kioclient", [str "exec", url]⟩, LaunchMode.block),
         (⟨str "x-www-browser", [url]⟩, LaunchMode.detach)] :=
    fun e t => chain_cons_block w _ _
      (fun acc => stepXWWW w url (orStatus w ⟨str "kioclient", [str "exec", url]⟩
        (orStatus w ⟨str "open", [url]⟩
          (orStatus w ⟨str "gnome-open", [url]⟩ acc))))
      (fun _ _ => rfl) h4 e t
  have h2 : ∀ e t,
      stepXWWW w url (orStatus w ⟨str "kioclient", [str "exec", url]⟩
        (orStatus w ⟨str "open", [url]⟩
          (orStatus w ⟨str "gnome-open", [url]⟩
            (orStatus w ⟨str "gvfs-open", [url]⟩
              (stepKde w url (.err e, t)))))) =
      runFallbackList w e t
        ((if w.xdgDesktop = some (str "KDE")
          then [(⟨str "kioclient", [str "exec", url]⟩, LaunchMode.block)]
          else []) ++
         [(⟨str "gvfs-open", [url]⟩, LaunchMode.block),
          (⟨str "gnome-open", [url]⟩, LaunchMode.block),
          (⟨str "open", [url]⟩, LaunchMode.block),
          (⟨str "kioclient", [str "exec", url]⟩, LaunchMode.block),
          (⟨str "x-www-browser", [url]⟩, LaunchMode.detach)]) :=
    fun e t => chain_kde w url _
      (fun acc => stepXWWW w url (orStatus w ⟨str "kioclient", [str "exec", url]⟩
        (orStatus w ⟨str "open", [url]⟩
          (orStatus w ⟨str "gnome-open", [url]⟩
            (orStatus w ⟨str "gvfs-open", [url]⟩ acc)))))
      (fun _ _ => rfl) h3 e t
  have h1 := chain_cons_block w ⟨str "xdg-open", [url]⟩ _
    (fun acc => stepXWWW w url (orStatus w ⟨str "kioclient", [str "exec", url]⟩
      (orStatus w ⟨str "open", [url]⟩
        (orStatus w ⟨str "gnome-open", [url]⟩
          (orStatus w ⟨str "gvfs-open", [url]⟩
            (stepKde w url acc))))))
    (fun _ _ => rfl) h2 e t
  rw [show fallbackChain w url (.err e, t) =
    stepXWWW w url (orStatus w ⟨str "kioclient", [str "exec", url]⟩
      (orStatus w ⟨str "open", [url]⟩
        (orStatus w ⟨str "gnome-open", [url]⟩
          (orStatus w ⟨str "gvfs-open", [url]⟩
            (stepKde w url
              (orStatus w ⟨str "xdg-open", [url]⟩ (.err e, t))))))) from rfl]
  rw [h1]
  simp [specFallbackCmds]

/-- C1: when resolution via BROWSER fails entirely (with error e0 and attempt
trace t0), open_browser_internal with the default selector behaves exactly as
the spec-side runner over the spec-side fallback list: xdg-open; kioclient exec
only when XDG_CURRENT_DESKTOP equals exactly "KDE"; gvfs-open; gnome-open;
open; kioclient exec again unconditionally; finally x-www-browser spawned
detached, a successful spawn yielding a synthetic zero exit status; stopping at
the first attempt that returns an exit status. -/
theorem C1_fallback_order (w : World) (url : Str) (e0 : Error) (t0 : List Attempt)
    (henv : open_on_unix_using_browser_env w url = (RunResult.err e0, t0)) :
    open_browser_internal w Browser.Default url =
      runFallbackList w e0 t0 (specFallbackCmds w url) := by
  show fallbackChain w url (open_on_unix_using_browser_env w url) = _
  rw [henv]
  exact fallbackChain_err w url e0 t0

/-- C1 witness: the refinement instantiated in a concrete world with BROWSER
unset. -/
theorem C1_witness :
    open_browser_internal wUnset Browser.Default uEx =
      runFallbackList wUnset ⟨ErrorKind.notFound, str "BROWSER env not set"⟩ []
        (specFallbackCmds wUnset uEx) :=
  C1_fallback_order wUnset uEx ⟨ErrorKind.notFound, str "BROWSER env not set"⟩ [] rfl

/-- C7 counterexample: a world in which every attempt fails, the second
kioclient attempt failing with a non-NotFound kind and the final x-www-browser
spawn failing with a different reason: the returned error is kioclient's (kind
Other), so its kind is not NotFound and its message is not the reason of the
chronologically last failure. -/
theorem C7_counterexample :
    (open_browser_internal wC7 Browser.Default uEx).1 =
      RunResult.err ⟨ErrorKind.other, str "kio denied"⟩
    ∧ ErrorKind.other ≠ ErrorKind.notFound
    ∧ wC7.spawn ⟨str "x-www-browser", [uEx]⟩ =
        .error ⟨ErrorKind.notFound, str "xwww gone"⟩
    ∧ str "kio denied" ≠ str "xwww gone" := by
  refine ⟨by decide, by decide, rfl, by decide⟩

/-- C7 amended: if every fallback attempt fails to produce an exit status,
open_browser_internal returns the error of the final unconditional kioclient
attempt (whatever its kind; in the typical missing-program case NotFound) and
the x-www-browser spawn failure's own reason is discarded; every intermediate
failure is swallowed into trying the next option, each chain entry is attempted
exactly once (so kioclient exec runs twice when XDG_CURRENT_DESKTOP is "KDE"),
and only exhaustion of the whole chain surfaces an error. -/
theorem C7_exhaustion_error (w : World) (url : Str)
    (e0 e1 e2 e3 e4 ek ex : Error) (t0 : List Attempt)
    (henv : open_on_unix_using_browser_env w url = (RunResult.err e0, t0))
    (h1 : w.status ⟨str "xdg-open", [url]⟩ = .error e1)
    (h2 : w.status ⟨str "gvfs-open", [url]⟩ = .error e2)
    (h3 : w.status ⟨str "gnome-open", [url]⟩ = .error e3)
    (h4 : w.status ⟨str "open", [url]⟩ = .error e4)
    (hk : w.status ⟨str "kioclient", [str "exec", url]⟩ = .error ek)
    (hx : w.spawn ⟨str "x-www-browser", [url]⟩ = .error ex) :
    open_browser_internal w Browser.Default url =
      (RunResult.err ek,
       t0 ++ [⟨⟨str "xdg-open", [url]⟩, LaunchMode.block⟩]
          ++ (if w.xdgDesktop = some (str "KDE")
              then [⟨⟨str "kioclient", [str "exec", url]⟩, LaunchMode.block⟩]
              else [])
          ++ [⟨⟨str "gvfs-open", [url]⟩, LaunchMode.block⟩,
              ⟨⟨str "gnome-open", [url]⟩, LaunchMode.block⟩,
              ⟨⟨str "open", [url]⟩, LaunchMode.block⟩,
              ⟨⟨str "kioclient", [str "exec", url]⟩, LaunchMode.block⟩,
              ⟨⟨str "x-www-browser", [url]⟩, LaunchMode.detach⟩]) := by
  have hmain : open_browser_internal w Browser.Default url =
      runFallbackList w e0 t0 (specFallbackCmds w url) := by
    show fallbackChain w url (open_on_unix_using_browser_env w url) = _
    rw [henv]
    exact fallbackChain_err w url e0 t0
  rw [hmain]
  by_cases hkde : w.xdgDesktop = some (str "KDE") <;>
    simp [specFallbackCmds, runFallbackList, hkde, h1, h2, h3, h4, hk, hx,
      List.append_assoc]

/-- C7 witness: the amended statement instantiated at the concrete world wC7,
where the result carries kioclient's error. -/
theorem C7_witness :
    open_browser_internal wC7 Browser.Default uEx =
      (RunResult.err ⟨ErrorKind.other, str "kio denied"⟩,
       [] ++ [⟨⟨str "xdg-open", [uEx]⟩, LaunchMode.block⟩]
          ++ (if wC7.xdgDesktop = some (str "KDE")
              then [⟨⟨str "kioclient", [str "exec", uEx]⟩, LaunchMode.block⟩]
              else [])
          ++ [⟨⟨str "gvfs-open", [uEx]⟩, LaunchMode.block⟩,
              ⟨⟨str "gnome-open", [uEx]⟩, LaunchMode.block⟩,
              ⟨⟨str "open", [uEx]⟩, LaunchMode.block⟩,
              ⟨⟨str "kioclient", [str "exec", uEx]⟩, LaunchMode.block⟩,
              ⟨⟨str "x-www-browser", [uEx]⟩, LaunchMode.detach⟩]) :=
  C7_exhaustion_error wC7 uEx
    ⟨ErrorKind.notFound, str "BROWSER env not set"⟩
    ⟨ErrorKind.notFound, str "absent"⟩ ⟨ErrorKind.notFound, str "absent"⟩
    ⟨ErrorKind.notFound, str "absent"⟩ ⟨ErrorKind.notFound, str "absent"⟩
    ⟨ErrorKind.other, str "kio denied"⟩ ⟨ErrorKind.notFound, str "xwww gone"⟩
    [] rfl rfl rfl rfl rfl rfl rfl

/-- C8: for every URL and world, any browser selector other than the default
returns immediately a NotFound error with the fixed message, with an empty
attempt trace (no process spawned), independently of the environment. -/
theorem C8_non_default (w : World) (b : Browser) (url : Str)
    (hb : b ≠ Browser.Default) :
    open_browser_internal w b url =
      (RunResult.err ⟨ErrorKind.notFound,
         str "Only the default browser is supported on this platform right now"⟩,
       []) := by
  cases b with
  | Default => exact absurd rfl hb
  | Firefox => rfl
  | Safari => rfl

/-- C8 witness: the Firefox selector at a concrete world. -/
theorem C8_witness :
    open_browser_internal wUnset Browser.Firefox uEx =
      (RunResult.err ⟨ErrorKind.notFound,
         str "Only the default browser is supported on this platform right now"⟩,
       []) :=
  C8_non_default wUnset Browser.Firefox uEx (by decide)

/-- C10: with BROWSER set to the empty string, the split yields one empty
segment which is skipped, so the env phase attempts nothing and fails with
NotFound "No valid command in $BROWSER" (a different message from the unset
case), and open_browser_internal proceeds through the xdg-open fallback chain
with exactly the same overall result as in the unset case. -/
theorem C10_empty_browser_env (w w2 : World) (url : Str)
    (hw : w.browserVar = some [])
    (hw2 : w2.browserVar = none)
    (hs : w2.status = w.status) (hsp : w2.spawn = w.spawn)
    (hx : w2.xdgDesktop = w.xdgDesktop) :
    open_on_unix_using_browser_env w url =
      (RunResult.err ⟨ErrorKind.notFound, str "No valid command in $BROWSER"⟩, [])
    ∧ str "No valid command in $BROWSER" ≠ str "BROWSER env not set"
    ∧ open_browser_internal w Browser.Default url =
        open_browser_internal w2 Browser.Default url := by
  have henv : open_on_unix_using_browser_env w url =
      (RunResult.err ⟨ErrorKind.notFound, str "No valid command in $BROWSER"⟩, []) := by
    simp [open_on_unix_using_browser_env, hw, splitOnChar, tryBrowserSpecs]
  refine ⟨henv, by decide, ?_⟩
  have henv2 : open_on_unix_using_browser_env w2 url =
      (RunResult.err ⟨ErrorKind.notFound, str "BROWSER env not set"⟩, []) := by
    simp [open_on_unix_using_browser_env, hw2]
  show fallbackChain w url (open_on_unix_using_browser_env w url) =
    fallbackChain w2 url (open_on_unix_using_browser_env w2 url)
  rw [henv, henv2]
  have e1 : fallbackChain w url
      (.err ⟨ErrorKind.notFound, str "No valid command in $BROWSER"⟩, []) =
      fallbackChain w url
      (.err ⟨ErrorKind.notFound, str "BROWSER env not set"⟩, []) := by
    rw [fallbackChain_err, fallbackChain_err]
    rw [show specFallbackCmds w url =
      (⟨str "xdg-open", [url]⟩, LaunchMode.block) ::
        ((if w.xdgDesktop = some (str "KDE")
          then [(⟨str "kioclient", [str "exec", url]⟩, LaunchMode.block)]
          else []) ++
         [(⟨str "gvfs-open", [url]⟩, LaunchMode.block),
          (⟨str "gnome-open", [url]⟩, LaunchMode.block),
          (⟨str "open", [url]⟩, LaunchMode.block),
          (⟨str "kioclient", [str "exec", url]⟩, LaunchMode.block),
          (⟨str "x-www-browser", [url]⟩, LaunchMode.detach)]) from by
      simp [specFallbackCmds]]
    cases h : w.status ⟨str "xdg-open", [url]⟩ with
    | ok s => simp [runFallbackList, h]
    | error e2 => simp [runFallbackList, h]
  have e2 : fallbackChain w2 url
      (.err ⟨ErrorKind.notFound, str "BROWSER env not set"⟩, []) =
      fallbackChain w url
      (.err ⟨ErrorKind.notFound, str "BROWSER env not set"⟩, []) := by
    cases w with
    | mk bv xd st sp =>
      cases w2 with
      | mk bv2 xd2 st2 sp2 =>
        simp only at hs hsp hx
        subst hs
        subst hsp
        subst hx
        rfl
  rw [e1, ← e2]

/-- C10 witness: the empty-BROWSER world versus the unset-BROWSER world with
the same launchers. -/
theorem C10_witness :
    open_on_unix_using_browser_env wEmptyBrowser uEx =
      (RunResult.err ⟨ErrorKind.notFound, str "No valid command in $BROWSER"⟩, [])
    ∧ str "No valid command in $BROWSER" ≠ str "BROWSER env not set"
    ∧ open_browser_internal wEmptyBrowser Browser.Default uEx =
        open_browser_internal wUnset Browser.Default uEx :=
  C10_empty_browser_env wEmptyBrowser wUnset uEx rfl rfl rfl rfl rfl

/-- The segment loop can only fail with the fixed NotFound message. -/
lemma tryBrowserSpecs_err_msg (w : World) (url : Str) :
    ∀ segs : List Str, ∀ e : Error, ∀ t : List Attempt,
      tryBrowserSpecs w url segs = (RunResult.err e, t) →
      e = ⟨ErrorKind.notFound, str "No valid command in $BROWSER"⟩ := by
  intro segs
  induction segs with
  | nil =>
    intro e t h
    simp only [tryBrowserSpecs, Prod.mk.injEq, RunResult.err.injEq] at h
    exact h.1.symm
  | cons seg rest ih =>
    intro e t h
    by_cases hempty : seg = []
    · simp only [tryBrowserSpecs, hempty, if_true] at h
      exact ih e t h
    · cases hres : resolveAttempt seg url with
      | none => simp [tryBrowserSpecs, hempty, hres] at h
      | some att =>
        cases hout : attemptOutcome w att with
        | ok s => simp [tryBrowserSpecs, hempty, hres, hout] at h
        | error e2 =>
          simp only [tryBrowserSpecs, if_neg hempty, hres, hout] at h
          cases hrec : tryBrowserSpecs w url rest with
          | mk r1 r2 =>
            rw [hrec] at h
            simp only [Prod.mk.injEq] at h
            exact ih e r2 (by rw [hrec, h.1])

/-- C5: open_on_unix_using_browser_env splits the BROWSER value on ':' before
any substitution; empty segments are skipped; a segment whose attempt yields an
exit status stops the loop and its status is returned, while a spawn failure
moves on to the next segment; exhaustion yields the NotFound error
"No valid command in $BROWSER"; and for BROWSER="firefox %s:chromium" and the
URL http://example.com, the first attempted command is firefox with the URL as
sole argument, and if its spawn fails the second attempted command is chromium
with the URL as sole argument. -/
theorem C5_browser_env :
    (∀ w : World, ∀ url bv : Str, w.browserVar = some bv →
       open_on_unix_using_browser_env w url = tryBrowserSpecs w url (splitOnChar ':' bv))
    ∧ (∀ w : World, ∀ url : Str, ∀ segs : List Str, ∀ e : Error, ∀ t : List Attempt,
         tryBrowserSpecs w url segs = (RunResult.err e, t) →
         e = ⟨ErrorKind.notFound, str "No valid command in $BROWSER"⟩)
    ∧ (∀ w : World, ∀ url : Str, ∀ segs : List Str,
         tryBrowserSpecs w url ([] :: segs) = tryBrowserSpecs w url segs)
    ∧ (∀ w : World, ∀ url seg : Str, ∀ segs : List Str, ∀ att : Attempt,
         seg ≠ [] → resolveAttempt seg url = some att →
         (∀ s : Int, attemptOutcome w att = .ok s →
            tryBrowserSpecs w url (seg :: segs) = (RunResult.ok s, [att]))
         ∧ (∀ e : Error, attemptOutcome w att = .error e →
              tryBrowserSpecs w url (seg :: segs) =
                ((tryBrowserSpecs w url segs).1, att :: (tryBrowserSpecs w url segs).2)))
    ∧ (∀ w : World, ∀ efx : Error,
         w.browserVar = some (str "firefox %s:chromium") →
         w.spawn ⟨str "firefox", [str "http://example.com"]⟩ = .error efx →
         w.spawn ⟨str "chromium", [str "http://example.com"]⟩ = .ok () →
         open_on_unix_using_browser_env w (str "http://example.com") =
           (RunResult.ok 0,
            [⟨⟨str "firefox", [str "http://example.com"]⟩, LaunchMode.detach⟩,
             ⟨⟨str "chromium", [str "http://example.com"]⟩, LaunchMode.detach⟩])) := by
  refine ⟨?_, ?_, ?_, ?_, ?_⟩
  · intro w url bv h
    simp [open_on_unix_using_browser_env, h]
  · intro w url segs e t h
    exact tryBrowserSpecs_err_msg w url segs e t h
  · intro w url segs
    simp [tryBrowserSpecs]
  · intro w url seg segs att hne hres
    constructor
    · intro s hout
      simp [tryBrowserSpecs, hne, hres, hout]
    · intro e hout
      simp [tryBrowserSpecs, hne, hres, hout]
  · intro w efx hbv hfx hch
    have hsplit : splitOnChar ':' (str "firefox %s:chromium") =
        [str "firefox %s", str "chromium"] := by decide
    have hne1 : (str "firefox %s" : Str) ≠ [] := by decide
    have hne2 : (str "chromium" : Str) ≠ [] := by decide
    have hr1 : resolveAttempt (str "firefox %s") (str "http://example.com") =
        some ⟨⟨str "firefox", [str "http://example.com"]⟩, LaunchMode.detach⟩ := by decide
    have hr2 : resolveAttempt (str "chromium") (str "http://example.com") =
        some ⟨⟨str "chromium", [str "http://example.com"]⟩, LaunchMode.detach⟩ := by decide
    rw [show open_on_unix_using_browser_env w (str "http://example.com") =
      tryBrowserSpecs w (str "http://example.com")
        (splitOnChar ':' (str "firefox %s:chromium")) from by
      simp [open_on_unix_using_browser_env, hbv]]
    rw [hsplit]
    simp [tryBrowserSpecs, hne1, hne2, hr1, hr2, attemptOutcome, spawnStatus, hfx, hch]

/-- C5 witness: the firefox/chromium scenario instantiated at a concrete world
in which only chromium spawns. -/
theorem C5_witness :
    open_on_unix_using_browser_env wC5 (str "http://example.com") =
      (RunResult.ok 0,
       [⟨⟨str "firefox", [str "http://example.com"]⟩, LaunchMode.detach⟩,
        ⟨⟨str "chromium", [str "http://example.com"]⟩, LaunchMode.detach⟩]) :=
  C5_browser_env.2.2.2.2 wC5 ⟨ErrorKind.notFound, str "program missing"⟩ rfl rfl rfl

/-- C6: a resolved program name is a text browser exactly when it is one of the
eight known names or ends with "/" followed by one of them; and a resolved
attempt runs blocking exactly when its program is a text browser, detached
exactly otherwise. -/
theorem C6_text_browser_policy :
    (∀ command : Str,
       is_text_browser command = true ↔
         ∃ b ∈ ([str "lynx", str "links", str "links2", str "elinks", str "w3m",
                 str "eww", str "netrik", str "retawq"] : List Str),
           command = b ∨ ('/' :: b) <:+ command)
    ∧ (∀ browser url : Str, ∀ att : Attempt,
         resolveAttempt browser url = some att →
         ((att.mode = LaunchMode.block ↔ is_text_browser att.cmd.prog = true)
          ∧ (att.mode = LaunchMode.detach ↔ is_text_browser att.cmd.prog = false))) := by
  constructor
  · intro command
    simp only [is_text_browser, TEXT_BROWSERS, List.any_eq_true, Bool.or_eq_true,
      beq_iff_eq, List.isSuffixOf_iff_suffix]
  · intro browser url att h
    cases hcm : cmdarrOf browser url with
    | nil => simp [resolveAttempt, hcm] at h
    | cons p rest =>
      simp only [resolveAttempt, hcm, Option.some.injEq] at h
      subst h
      by_cases htb : is_text_browser p = true
      · simp [htb]
      · simp only [Bool.not_eq_true] at htb
        simp [htb]

/-- C6 witness: a path ending in /lynx is a text browser, and the lynx spec
resolves to a blocking attempt. -/
theorem C6_witness :
    is_text_browser (str "/usr/bin/lynx") = true
    ∧ ∃ att : Attempt, resolveAttempt (str "lynx") uEx = some att
        ∧ att.mode = LaunchMode.block := by
  constructor
  · exact (C6_text_browser_policy.1 (str "/usr/bin/lynx")).mpr
      ⟨str "lynx", by decide, Or.inr ⟨str "/usr/bin", by decide⟩⟩
  · exact ⟨⟨⟨str "lynx", [uEx]⟩, LaunchMode.block⟩, by decide,
      ((C6_text_browser_policy.2 (str "lynx") uEx
          ⟨⟨str "lynx", [uEx]⟩, LaunchMode.block⟩ (by decide)).1).mpr (by decide)⟩

/-- C9: a non-empty, whitespace-only BROWSER segment survives the emptiness
check but whitespace-splits to an empty token vector, so indexing cmdarr[0]
panics (modelled as crash) instead of being skipped or turned into NotFound:
with BROWSER=" " the very first segment crashes the env phase and the panic
propagates through open_browser_internal; with BROWSER="lynx: " the crash
happens after the failed lynx attempt. -/
theorem C9_whitespace_segment_crash :
    open_on_unix_using_browser_env wSpace uEx = (RunResult.crash, [])
    ∧ open_on_unix_using_browser_env wLynxSpace uEx =
        (RunResult.crash, [⟨⟨str "lynx", [uEx]⟩, LaunchMode.block⟩])
    ∧ open_browser_internal wSpace Browser.Default uEx = (RunResult.crash, []) := by
  refine ⟨by decide, by decide, by decide⟩

end Webbrowser
